import Mathlib

/-!
Verification development for the rss-feed-monitor pipeline.

The definitions below are a shallow embedding of the Python sources:
`src/llm_filter.py` (relevance filtering), `src/summarizer.py`
(grouping, JSON sanitization and per-topic summarization) and
`src/article_history.py` (deduplication against previously published
links).  LLM calls and the Python `json.loads` library routine are
external collaborators and are modelled as function parameters (an
oracle producing either a response string or an exception, and a
partial parse function returning the parsed document shape the code
accesses).  All other logic is translated directly from the source.
-/

namespace RSS

/-- One fetched feed entry, as produced by `fetch_feeds` and consumed
by `filter_stories` (`src/llm_filter.py`). -/
structure Article where
  title : String
  summary : String
  link : String
deriving DecidableEq, Repr

/-- A `{title, link}` pair, the shape used inside grouping responses
and in the final output of `group_and_summarize`. -/
structure LinkedArticle where
  title : String
  link : String
deriving DecidableEq, Repr

/-- A topic record: a dict `{topic, articles}` as parsed from a
grouping response (summary absent) or enriched with a summary by the
summarization pass of `group_and_summarize`. -/
structure Topic where
  topic : String
  articles : List LinkedArticle
  summary : Option String := none
deriving DecidableEq, Repr

/-- The parsed shape of a grouping response after
`chunk_result.get("topics", [])`: a list of topic records. -/
structure GroupDoc where
  topics : List Topic
deriving DecidableEq, Repr

/- ---------- string helpers mirroring Python str operations ---------- -/

/-- The characters matched by Python's `\s` and stripped by
`str.strip()` (ASCII fragment). -/
def pyIsSpace (c : Char) : Bool :=
  c = ' ' || c = '\t' || c = '\n' || c = '\x0d' || c = '\x0c' || c = '\x0b'

/-- `str.strip()` on a character list. -/
def pyStripChars (cs : List Char) : List Char :=
  ((cs.dropWhile pyIsSpace).reverse.dropWhile pyIsSpace).reverse

/-- Python `str.strip()`. -/
def pyStrip (s : String) : String :=
  String.mk (pyStripChars s.data)

/-- Python `str.lower()` (ASCII fragment, as `Char.toLower`). -/
def pyLower (s : String) : String :=
  String.mk (s.data.map Char.toLower)

/-- Boolean list-prefix test. -/
def isPre : List Char → List Char → Bool
  | [], _ => true
  | _ :: _, [] => false
  | a :: as, b :: bs => a = b && isPre as bs

/-- All suffixes of a list, longest first. -/
def suffixes : List Char → List (List Char)
  | [] => [[]]
  | c :: cs => (c :: cs) :: suffixes cs

/-- Python's `needle in hay` substring containment. -/
def containsSub (needle hay : List Char) : Bool :=
  (suffixes hay).any (fun t => isPre needle t)

/-- Python's `needle in hay` on strings. -/
def containsStr (hay needle : String) : Bool :=
  containsSub needle.data hay.data

/- ---------- src/llm_filter.py : filter_stories ---------- -/

/-- The decision string extracted from a model answer by
`filter_stories` (`src/llm_filter.py` lines 78-96).  In verbose mode a
`DECISION: Yes` / `DECISION: No` marker is located case-insensitively
with a bare substring fallback; otherwise the lowercased answer itself
is the decision. -/
def decisionOf (verbose : Bool) (answer : String) : String :=
  if verbose then
    let dl := pyLower answer
    if containsStr dl "decision: yes" then "yes"
    else if containsStr dl "decision: no" then "no"
    else if containsStr dl "yes" then "yes" else "no"
  else pyLower answer

/-- Whether one model response (the message content, before
`.strip()`) makes the article pass: `"yes" in decision`
(`src/llm_filter.py` line 98). -/
def passStr (verbose : Bool) (content : String) : Bool :=
  containsStr (decisionOf verbose (pyStrip content)) "yes"

/-- Whether an article passes the filter under response oracle
`respond`; a call that raises (`Except.error`) contributes no pass
(`src/llm_filter.py` lines 59-111). -/
def articlePasses (verbose : Bool) (respond : Article → Except Unit String)
    (a : Article) : Bool :=
  match respond a with
  | .ok content => passStr verbose content
  | .error _ => false

/-- The main loop of `filter_stories` (`src/llm_filter.py` lines
30-111): one LLM call per article; the kept articles and the number of
LLM calls made. -/
def filter_stories_run (verbose : Bool) (articles : List Article)
    (respond : Article → Except Unit String) : List Article × Nat :=
  match articles with
  | [] => ([], 0)
  | a :: rest =>
    let r := filter_stories_run verbose rest respond
    (if articlePasses verbose respond a then a :: r.1 else r.1, r.2 + 1)

/-- `filter_stories` itself: the list of articles that met the filter
criteria. -/
def filter_stories (verbose : Bool) (articles : List Article)
    (respond : Article → Except Unit String) : List Article :=
  (filter_stories_run verbose articles respond).1

/- ---------- src/summarizer.py : sanitize_json_string ---------- -/

/-- `re.sub(r'^```json\s*', '', s)`: drop a leading markdown fence
marker together with the whitespace after it (the pattern is anchored
at the start of the string). -/
def stripFenceOpen (s : String) : String :=
  if isPre ("```json".data) s.data then
    String.mk ((s.data.drop 7).dropWhile pyIsSpace)
  else s

/-- List suffix test. -/
def endsWithChars (suffix cs : List Char) : Bool :=
  isPre suffix.reverse cs.reverse

/-- `re.sub(r'\s*```$', '', s)`: in Python, `$` matches at the end of
the string or just before a trailing newline, so a closing fence (plus
the whitespace run before it) is removed there. -/
def stripFenceClose (s : String) : String :=
  let cs := s.data
  let hasNl := cs.getLast? = some '\n'
  let body := if hasNl then cs.dropLast else cs
  let tl : List Char := if hasNl then ['\n'] else []
  if endsWithChars ("```".data) body then
    String.mk ((((body.take (body.length - 3)).reverse.dropWhile pyIsSpace).reverse) ++ tl)
  else s

/-- Success of the lookahead `(?=(.*?".*?":))` of the quote-escaping
substitution: within the newline-free region ahead there is a quote
followed later by a quote-colon pair. -/
def quoteColonExists : List Char → Bool
  | [] => false
  | '"' :: rest => containsSub ['"', ':'] rest
  | _ :: rest => quoteColonExists rest

/-- The lookahead applied at the position after a candidate quote. -/
def lookaheadEscape (rest : List Char) : Bool :=
  quoteColonExists (rest.takeWhile (fun c => c ≠ '\n'))

/-- `re.sub(r'(?<!\\)"(?=(.*?".*?":))', r'\"', s)`: each quote that is
not preceded by a backslash and whose lookahead succeeds is replaced
by a backslash-quote pair; the scan runs over the original string, so
the state is the original previous character. -/
def escapeQuotesGo : Option Char → List Char → List Char
  | _, [] => []
  | prev, c :: rest =>
    if c == '"' && prev != some '\\' && lookaheadEscape rest then
      '\\' :: '"' :: escapeQuotesGo (some c) rest
    else c :: escapeQuotesGo (some c) rest

/-- `[a-zA-Z0-9_]`. -/
def isWordChar (c : Char) : Bool :=
  c.isAlpha || c.isDigit || c = '_'

/-- `re.sub(r'([{,]\s*)([a-zA-Z0-9_]+)(\s*:)', r'\1"\2"\3', s)`: after
a brace or comma, an unquoted key followed by a colon gains quotes;
scanning resumes after the matched colon.  The fuel argument (the
remaining length) only ensures termination. -/
def quoteKeysGo : Nat → List Char → List Char
  | 0, cs => cs
  | _ + 1, [] => []
  | fuel + 1, c :: rest =>
    if c == '\x7b' || c == ',' then
      let ws1 := rest.takeWhile pyIsSpace
      let r1 := rest.dropWhile pyIsSpace
      let word := r1.takeWhile isWordChar
      let r2 := r1.dropWhile isWordChar
      let ws2 := r2.takeWhile pyIsSpace
      let r3 := r2.dropWhile pyIsSpace
      match word, r3 with
      | _ :: _, ':' :: r4 =>
        c :: (ws1 ++ '"' :: (word ++ '"' :: (ws2 ++ ':' :: quoteKeysGo fuel r4)))
      | _, _ => c :: quoteKeysGo fuel rest
    else c :: quoteKeysGo fuel rest

/-- `s.split('\n')`. -/
def splitNl : List Char → List (List Char)
  | [] => [[]]
  | c :: rest =>
    if c = '\n' then [] :: splitNl rest
    else
      match splitNl rest with
      | r :: rs => (c :: r) :: rs
      | [] => [[c]]

/-- The per-line repair of `sanitize_json_string`: a line with an odd
number of quotes that does not end (after stripping) with a comma
gains a closing quote. -/
def fixLine (line : List Char) : List Char :=
  let q := line.count '"'
  if q % 2 == 1 && !((pyStripChars line).getLast? == some ',') then
    line ++ ['"']
  else line

/-- `sanitize_json_string` (`src/summarizer.py` lines 8-40): strip
markdown fences, escape stray quotes, quote bare keys, then repair
unterminated strings line by line. -/
def sanitize_json_string (s : String) : String :=
  let s1 := stripFenceOpen s
  let s2 := stripFenceClose s1
  let s3 := String.mk (escapeQuotesGo none s2.data)
  let s4 := String.mk (quoteKeysGo s3.data.length s3.data)
  String.mk (List.intercalate ['\n'] ((splitNl s4.data).map fixLine))

/- ---------- src/summarizer.py : validate_json ---------- -/

/-- Result of `validate_json`: either a parsed document or an error
message. -/
inductive ValidateResult where
  | valid : GroupDoc → ValidateResult
  | invalid : String → ValidateResult
deriving DecidableEq, Repr

/-- `validate_json` (`src/summarizer.py` lines 42-67): try the strict
parse, then one sanitization pass and one re-parse; report failure
otherwise.  `loads` models the external `json.loads`, returning
`none` on a `JSONDecodeError`. -/
def validate_json (loads : String → Option GroupDoc) (s : String) : ValidateResult :=
  match loads s with
  | some parsed => .valid parsed
  | none =>
    match loads (sanitize_json_string s) with
    | some parsed => .valid parsed
    | none => .invalid "JSON parsing failed after sanitization"

/- ---------- src/summarizer.py : group_and_summarize, grouping pass ---------- -/

/-- `chunk_articles` with explicit fuel (the slicing loop
`articles_list[i:i+10]` of `src/summarizer.py` lines 88-91). -/
def chunkAux : Nat → List Article → List (List Article)
  | 0, _ => []
  | _ + 1, [] => []
  | fuel + 1, a :: rest => (a :: rest.take 9) :: chunkAux fuel (rest.drop 9)

/-- Split articles into consecutive chunks of 10. -/
def chunk_articles (l : List Article) : List (List Article) :=
  chunkAux l.length l

/-- The fallback stub synthesized for a failed chunk
(`src/summarizer.py` lines 160-174): topic `"Articles Group
{chunk_index+1}"` over the chunk's `{title, link}` pairs. -/
def fallbackTopic (chunkIndex : Nat) (chunk : List Article) : Topic :=
  { topic := "Articles Group " ++ Nat.repr (chunkIndex + 1),
    articles := chunk.map (fun a => LinkedArticle.mk a.title a.link),
    summary := none }

/-- Processing of one chunk (`src/summarizer.py` lines 132-174): call
the grouping model; on success strip the output and try the strict
parse, then `validate_json`; a call exception or an irrecoverable
parse failure yields the fallback stub. -/
def chunkTopics (gCall : Nat → List Article → Except Unit String)
    (loads : String → Option GroupDoc) (chunkIndex : Nat)
    (chunk : List Article) : List Topic :=
  match gCall chunkIndex chunk with
  | .error _ => [fallbackTopic chunkIndex chunk]
  | .ok content =>
    let raw := pyStrip content
    match loads raw with
    | some doc => doc.topics
    | none =>
      match validate_json loads raw with
      | .valid doc => doc.topics
      | .invalid _ => [fallbackTopic chunkIndex chunk]

/-- The grouping loop over enumerated chunks, accumulating
`all_topics` in chunk order. -/
def groupChunks (gCall : Nat → List Article → Except Unit String)
    (loads : String → Option GroupDoc) :
    Nat → List (List Article) → List Topic
  | _, [] => []
  | idx, c :: rest =>
    chunkTopics gCall loads idx c ++ groupChunks gCall loads (idx + 1) rest

/- ---------- src/summarizer.py : summarization pass ---------- -/

/-- Resolution of a `{title, link}` stub back to a full article by
title, with a placeholder record when no match exists
(`src/summarizer.py` lines 184-196). -/
def resolveArticle (articles : List Article) (la : LinkedArticle) : Article :=
  match articles.find? (fun a => a.title == la.title) with
  | some a => a
  | none =>
    { title := la.title, summary := "No detailed summary available.", link := la.link }

/-- `re.sub(r'^[#*"\s]*(Summary:|Topic:|Articles:)\s*', '', s)`: the
character class of junk characters allowed before a label. -/
def isJunkChar (c : Char) : Bool :=
  c = '#' || c = '*' || c = '"' || pyIsSpace c

/-- Strip a leading junk-prefixed `Summary:`/`Topic:`/`Articles:`
label together with the whitespace after it; a string with no such
label is unchanged. -/
def stripLabel (s : String) : String :=
  let rest := s.data.dropWhile isJunkChar
  if isPre ("Summary:".data) rest then String.mk ((rest.drop 8).dropWhile pyIsSpace)
  else if isPre ("Topic:".data) rest then String.mk ((rest.drop 6).dropWhile pyIsSpace)
  else if isPre ("Articles:".data) rest then String.mk ((rest.drop 9).dropWhile pyIsSpace)
  else s

/-- `re.sub(r'\n+', ' ', s)`: every run of newlines becomes a single
space. -/
def collapseNlGo : Bool → List Char → List Char
  | _, [] => []
  | prevNl, c :: rest =>
    if c = '\n' then
      if prevNl then collapseNlGo true rest else ' ' :: collapseNlGo true rest
    else c :: collapseNlGo false rest

/-- Newline-run collapsing on strings. -/
def collapseNewlines (s : String) : String :=
  String.mk (collapseNlGo false s.data)

/-- The deterministic fallback summary
`f"A collection of {len(articles_in_topic)} articles about {topic}."`. -/
def fallbackSummary (n : Nat) (topicName : String) : String :=
  "A collection of " ++ Nat.repr n ++ " articles about " ++ topicName ++ "."

/-- The per-topic summarization step (`src/summarizer.py` lines
180-243): resolve the topic's stubs, skip empty topics, otherwise call
the summarization model; an exception yields the fallback summary
verbatim, an empty response yields the fallback summary subjected to
the same post-processing as a real response (label stripping and
newline collapsing); on success the article list is rewritten to
`{title, link}` pairs. -/
def summarizeTopic (articles : List Article)
    (sCall : String → List Article → Except Unit String) (t : Topic) : Topic :=
  let articlesInTopic := t.articles
  let relevantArticles := articlesInTopic.map (resolveArticle articles)
  if relevantArticles.isEmpty then
    { t with summary := some "No articles available for summarization." }
  else
    match sCall t.topic (relevantArticles.take 5) with
    | .error _ =>
      { t with summary := some (fallbackSummary articlesInTopic.length t.topic) }
    | .ok content =>
      let st0 := pyStrip content
      let st1 := if st0 = "" then fallbackSummary articlesInTopic.length t.topic else st0
      let st2 := collapseNewlines (stripLabel st1)
      { t with summary := some st2,
               articles := articlesInTopic.map (fun a => LinkedArticle.mk a.title a.link) }

/-- `group_and_summarize` (`src/summarizer.py` lines 69-245): empty
input short-circuits to `{"topics": []}`; otherwise the grouping pass
runs over chunks of 10 and the summarization pass enriches every
accumulated topic. -/
def group_and_summarize (articles : List Article)
    (gCall : Nat → List Article → Except Unit String)
    (loads : String → Option GroupDoc)
    (sCall : String → List Article → Except Unit String) : GroupDoc :=
  if articles.isEmpty then { topics := [] }
  else
    let allTopics := groupChunks gCall loads 0 (chunk_articles articles)
    { topics := allTopics.map (summarizeTopic articles sCall) }

/-- Number of summarization calls: one per topic whose resolved
article list is nonempty (the `continue` at `src/summarizer.py` line
201 skips the call). -/
def summarizeCallCount (articles : List Article) (topics : List Topic) : Nat :=
  (topics.filter (fun t => !(t.articles.map (resolveArticle articles)).isEmpty)).length

/-- Total number of LLM calls made by `group_and_summarize`: one
grouping call per chunk plus the summarization calls; zero when the
input is empty (the early return precedes any chunking). -/
def group_and_summarize_calls (articles : List Article)
    (gCall : Nat → List Article → Except Unit String)
    (loads : String → Option GroupDoc) : Nat :=
  if articles.isEmpty then 0
  else
    (chunk_articles articles).length +
      summarizeCallCount articles (groupChunks gCall loads 0 (chunk_articles articles))

/- ---------- src/article_history.py ---------- -/

/-- The in-memory state of `ArticleHistory`: the set of links recorded
in `self.history["articles"]` (the dict keys; file persistence is
peripheral I/O). -/
structure ArticleHistory where
  publishedLinks : List String
deriving DecidableEq, Repr

/-- `ArticleHistory.is_published` (`src/article_history.py` lines
73-84): membership of the article's link among the recorded keys. -/
def ArticleHistory.is_published (h : ArticleHistory) (a : Article) : Bool :=
  h.publishedLinks.contains a.link

/-- `ArticleHistory.filter_published` (`src/article_history.py` lines
106-116): keep the articles not previously published. -/
def ArticleHistory.filter_published (h : ArticleHistory)
    (articles : List Article) : List Article :=
  articles.filter (fun a => !h.is_published a)

/-- A chunk fails when its grouping call raises, or its response
parses neither strictly nor after sanitization. -/
def chunkFails (g : Nat → List Article → Except Unit String)
    (loads : String → Option GroupDoc) (i : Nat) (c : List Article) : Prop :=
  g i c = .error () ∨
    ∃ content, g i c = .ok content ∧ loads (pyStrip content) = none ∧
      loads (sanitize_json_string (pyStrip content)) = none

/- ---------- concrete sample data for witnesses and counterexamples ---------- -/

/-- Seven sample articles, used to exercise the filter on a 7-article
input. -/
def sampleArticle (i : Nat) : Article :=
  { title := "Story " ++ Nat.repr i,
    summary := "Summary " ++ Nat.repr i,
    link := "https://example.com/" ++ Nat.repr i }

/-- The 7-article input of the batching scenario. -/
def sampleArts7 : List Article :=
  [sampleArticle 1, sampleArticle 2, sampleArticle 3, sampleArticle 4,
   sampleArticle 5, sampleArticle 6, sampleArticle 7]

/-- A response in the batch-decision JSON shape the specification
describes, granting Yes to batch-local indices 1 and 3. -/
def batchDecisionResp : String :=
  "\x7b\"decisions\": [\x7b\"index\": 1, \"decision\": \"Yes\"\x7d, \x7b\"index\": 2, \"decision\": \"No\"\x7d, \x7b\"index\": 3, \"decision\": \"Yes\"\x7d, \x7b\"index\": 4, \"decision\": \"No\"\x7d, \x7b\"index\": 5, \"decision\": \"No\"\x7d]\x7d"

/-- A per-article oracle answering Yes exactly for global (0-based)
indices 0, 2 and 6 of `sampleArts7`. -/
def scenarioRespond : Article → Except Unit String := fun a =>
  if a = sampleArticle 1 ∨ a = sampleArticle 3 ∨ a = sampleArticle 7 then
    Except.ok "Yes"
  else Except.ok "No"

/-- A grouping response with two structurally identical topics named
`A` (valid JSON, so the strict parse succeeds). -/
def dupTopicsResp : String :=
  "\x7b\"topics\": [\x7b\"topic\": \"A\", \"articles\": [\x7b\"title\": \"t1\", \"link\": \"l1\"\x7d]\x7d, \x7b\"topic\": \"A\", \"articles\": [\x7b\"title\": \"t1\", \"link\": \"l1\"\x7d]\x7d]\x7d"

/-- The document `json.loads` yields on `dupTopicsResp`. -/
def dupTopicsDoc : GroupDoc :=
  { topics :=
      [{ topic := "A", articles := [{ title := "t1", link := "l1" }] },
       { topic := "A", articles := [{ title := "t1", link := "l1" }] }] }

/-- A grouping response whose single topic name contains an escaped
newline (`json.loads` turns the two-character escape into a real
newline). -/
def nlTopicResp : String :=
  "\x7b\"topics\": [\x7b\"topic\": \"a\\nb\", \"articles\": [\x7b\"title\": \"t1\", \"link\": \"l1\"\x7d]\x7d]\x7d"

/-- The document `json.loads` yields on `nlTopicResp`. -/
def nlTopicDoc : GroupDoc :=
  { topics := [{ topic := "a\nb", articles := [{ title := "t1", link := "l1" }] }] }

/-- The article referenced by the two grouping responses above. -/
def stubArticle : Article := { title := "t1", summary := "s1", link := "l1" }

/-- A sample topic for the summarization witnesses. -/
def sampleTopic : Topic :=
  { topic := "Storms", articles := [{ title := "t1", link := "l1" }] }

/-- A sample history with one recorded link. -/
def sampleHistory : ArticleHistory := { publishedLinks := ["l1"] }

/-- An article whose link is not recorded in `sampleHistory`. -/
def freshArticle : Article := { title := "t2", summary := "s2", link := "l2" }

/-- A second article sharing `freshArticle`'s link but nothing else. -/
def freshArticleAlias : Article := { title := "other", summary := "x", link := "l2" }

/- ---------- supporting lemmas ---------- -/

theorem filter_stories_run_eq (verbose : Bool) (articles : List Article)
    (respond : Article → Except Unit String) :
    filter_stories_run verbose articles respond =
      (articles.filter (articlePasses verbose respond), articles.length) := by
  induction articles with
  | nil => rfl
  | cons a rest ih =>
    simp only [filter_stories_run, ih, List.filter, List.length_cons]
    cases h : articlePasses verbose respond a <;> simp [h]

theorem filter_stories_eq_filter (verbose : Bool) (articles : List Article)
    (respond : Article → Except Unit String) :
    filter_stories verbose articles respond =
      articles.filter (articlePasses verbose respond) := by
  simp [filter_stories, filter_stories_run_eq]

theorem chunkTopics_of_fails (g : Nat → List Article → Except Unit String)
    (l : String → Option GroupDoc) (i : Nat) (c : List Article)
    (h : chunkFails g l i c) : chunkTopics g l i c = [fallbackTopic i c] := by
  rcases h with h | ⟨content, hok, h1, h2⟩
  · simp [chunkTopics, h]
  · simp [chunkTopics, hok, h1, validate_json, h2]

theorem chunkAux_join : ∀ (fuel : Nat) (l : List Article),
    l.length ≤ fuel → (chunkAux fuel l).flatten = l := by
  intro fuel
  induction fuel with
  | zero =>
    intro l h
    have : l = [] := List.length_eq_zero.mp (Nat.le_zero.mp h)
    subst this; rfl
  | succ fuel ih =>
    intro l h
    match l with
    | [] => rfl
    | a :: rest =>
      simp only [chunkAux, List.flatten_cons]
      have hlen : (rest.drop 9).length ≤ fuel := by
        simp only [List.length_drop]
        simp only [List.length_cons] at h
        omega
      rw [ih _ hlen]
      simp [List.take_append_drop]

theorem chunk_articles_join (l : List Article) : (chunk_articles l).flatten = l :=
  chunkAux_join l.length l (Nat.le_refl _)

theorem groupChunks_fallback_mem (g : Nat → List Article → Except Unit String)
    (l : String → Option GroupDoc) :
    ∀ (chunks : List (List Article)) (start i : Nat) (c : List Article),
      chunks.get? i = some c → chunkFails g l (start + i) c →
      fallbackTopic (start + i) c ∈ groupChunks g l start chunks := by
  intro chunks
  induction chunks with
  | nil => intro start i c h; simp at h
  | cons c0 rest ih =>
    intro start i c hget hfail
    match i with
    | 0 =>
      simp only [List.get?_cons_zero, Option.some.injEq] at hget
      subst hget
      simp only [Nat.add_zero] at hfail ⊢
      simp [groupChunks, chunkTopics_of_fails g l start c0 hfail]
    | i + 1 =>
      simp only [List.get?_cons_succ] at hget
      have hmem := ih (start + 1) i c hget (by
        have : start + 1 + i = start + (i + 1) := by omega
        rw [this]; exact hfail)
      have harith : start + 1 + i = start + (i + 1) := by omega
      rw [harith] at hmem
      simp only [groupChunks, List.mem_append]
      exact Or.inr hmem

theorem groupChunks_coverage (g : Nat → List Article → Except Unit String)
    (l : String → Option GroupDoc)
    (hfail : ∀ i c, chunkFails g l i c) :
    ∀ (chunks : List (List Article)) (start : Nat) (a : Article),
      a ∈ chunks.flatten →
      ∃ t, t ∈ groupChunks g l start chunks ∧
        LinkedArticle.mk a.title a.link ∈ t.articles := by
  intro chunks
  induction chunks with
  | nil => intro start a ha; simp at ha
  | cons c0 rest ih =>
    intro start a ha
    rw [List.flatten_cons, List.mem_append] at ha
    rcases ha with ha | ha
    · refine ⟨fallbackTopic start c0, ?_, ?_⟩
      · simp [groupChunks, chunkTopics_of_fails g l start c0 (hfail start c0)]
      · simpa [fallbackTopic] using List.mem_map_of_mem (fun x => LinkedArticle.mk x.title x.link) ha
    · obtain ⟨t, ht, hm⟩ := ih (start + 1) a ha
      refine ⟨t, ?_, hm⟩
      simp only [groupChunks, List.mem_append]
      exact Or.inr ht

theorem digitChar_ne_newline (m : Nat) : Nat.digitChar m ≠ '\n' := by
  rcases Nat.lt_or_ge m 16 with h | h
  · interval_cases m <;> decide
  · have he : Nat.digitChar m = '*' := by
      unfold Nat.digitChar
      repeat rw [if_neg (by omega)]
    rw [he]; decide

theorem toDigitsCore_ne_newline : ∀ (fuel b n : Nat) (acc : List Char),
    (∀ c ∈ acc, c ≠ '\n') → ∀ c ∈ Nat.toDigitsCore b fuel n acc, c ≠ '\n' := by
  intro fuel
  induction fuel with
  | zero =>
    intro b n acc hacc c hc
    exact hacc c hc
  | succ fuel ih =>
    intro b n acc hacc c hc
    simp only [Nat.toDigitsCore] at hc
    split at hc
    · rcases List.mem_cons.mp hc with h | h
      · rw [h]; exact digitChar_ne_newline _
      · exact hacc c h
    · refine ih b (n / b) (Nat.digitChar (n % b) :: acc) ?_ c hc
      intro d hd
      rcases List.mem_cons.mp hd with h | h
      · rw [h]; exact digitChar_ne_newline _
      · exact hacc d h

theorem repr_ne_newline (n : Nat) : ∀ c ∈ (Nat.repr n).data, c ≠ '\n' := by
  intro c hc
  exact toDigitsCore_ne_newline (n + 1) 10 n [] (by simp) c hc

theorem collapseNlGo_eq_of (cs : List Char) (h : ∀ c ∈ cs, c ≠ '\n') :
    ∀ b, collapseNlGo b cs = cs := by
  induction cs with
  | nil => intro b; rfl
  | cons c rest ih =>
    intro b
    have hc : c ≠ '\n' := h c (List.mem_cons_self c rest)
    simp only [collapseNlGo, if_neg hc]
    rw [ih (fun d hd => h d (List.mem_cons_of_mem c hd)) false]

theorem fallbackSummary_data (n : Nat) (t : String) :
    (fallbackSummary n t).data =
      'A' :: ' ' :: ("collection of ".data ++ (Nat.repr n).data ++
        " articles about ".data ++ t.data ++ ".".data) := by
  have h : ("A collection of ").data = 'A' :: ' ' :: "collection of ".data := by decide
  simp [fallbackSummary, String.data_append, h]

theorem fallbackSummary_ne_newline (n : Nat) (t : String)
    (ht : ∀ c ∈ t.data, c ≠ '\n') :
    ∀ c ∈ (fallbackSummary n t).data, c ≠ '\n' := by
  intro c hc
  rw [fallbackSummary_data] at hc
  have hlit1 : ∀ c ∈ ("collection of ").data, c ≠ '\n' := by decide
  have hlit2 : ∀ c ∈ (" articles about ").data, c ≠ '\n' := by decide
  have hlit3 : ∀ c ∈ (".").data, c ≠ '\n' := by decide
  rcases List.mem_cons.mp hc with h | hc
  · rw [h]; decide
  rcases List.mem_cons.mp hc with h | hc
  · rw [h]; decide
  simp only [List.mem_append] at hc
  rcases hc with ((((h | h) | h) | h) | h)
  · exact hlit1 c h
  · exact repr_ne_newline n c h
  · exact hlit2 c h
  · exact ht c h
  · exact hlit3 c h

theorem stripLabel_A_space (tail : List Char) :
    stripLabel (String.mk ('A' :: ' ' :: tail)) = String.mk ('A' :: ' ' :: tail) := by
  have hjunk : isJunkChar 'A' = false := by decide
  have hS : ("Summary:").data = 'S' :: "ummary:".data := by decide
  have hT : ("Topic:").data = 'T' :: "opic:".data := by decide
  have hA : ("Articles:").data = 'A' :: 'r' :: "ticles:".data := by decide
  simp [stripLabel, List.dropWhile_cons, hjunk, hS, hT, hA, isPre]

theorem stripLabel_fallback (n : Nat) (t : String) :
    stripLabel (fallbackSummary n t) = fallbackSummary n t := by
  have h := stripLabel_A_space ("collection of ".data ++ (Nat.repr n).data ++
    " articles about ".data ++ t.data ++ ".".data)
  have hdata : fallbackSummary n t =
      String.mk ('A' :: ' ' :: ("collection of ".data ++ (Nat.repr n).data ++
        " articles about ".data ++ t.data ++ ".".data)) := by
    cases hfb : fallbackSummary n t with
    | mk d =>
      have := fallbackSummary_data n t
      rw [hfb] at this
      simp only at this
      rw [this]
  rw [hdata]; exact h

theorem collapseNewlines_fallback (n : Nat) (t : String)
    (ht : ∀ c ∈ t.data, c ≠ '\n') :
    collapseNewlines (fallbackSummary n t) = fallbackSummary n t := by
  cases hfb : fallbackSummary n t with
  | mk d =>
    have hnl : ∀ c ∈ d, c ≠ '\n' := by
      intro c hc
      have := fallbackSummary_ne_newline n t ht c
      rw [hfb] at this
      exact this hc
    simp [collapseNewlines, collapseNlGo_eq_of d hnl false]

theorem linkedMap_id (la : List LinkedArticle) :
    la.map (fun a => LinkedArticle.mk a.title a.link) = la := by
  induction la with
  | nil => rfl
  | cons a rest ih => simp [ih]

theorem mapResolve_isEmpty (arts : List Article) (la : List LinkedArticle)
    (h : la ≠ []) : (la.map (resolveArticle arts)).isEmpty = false := by
  cases la with
  | nil => exact absurd rfl h
  | cons a rest => simp

theorem summarizeTopic_fields (arts : List Article)
    (sCall : String → List Article → Except Unit String) (t : Topic) :
    (summarizeTopic arts sCall t).topic = t.topic ∧
      (summarizeTopic arts sCall t).articles = t.articles := by
  simp only [summarizeTopic]
  split
  · exact ⟨rfl, rfl⟩
  · split
    · exact ⟨rfl, rfl⟩
    · exact ⟨rfl, linkedMap_id _⟩

theorem summarizeTopic_error (arts : List Article)
    (sCall : String → List Article → Except Unit String) (t : Topic)
    (hne : t.articles ≠ [])
    (h : sCall t.topic ((t.articles.map (resolveArticle arts)).take 5) = .error ()) :
    (summarizeTopic arts sCall t).summary =
      some (fallbackSummary t.articles.length t.topic) := by
  unfold summarizeTopic
  simp [mapResolve_isEmpty arts t.articles hne, h]

theorem summarizeTopic_empty_response (arts : List Article)
    (sCall : String → List Article → Except Unit String) (t : Topic)
    (content : String) (hne : t.articles ≠ [])
    (h : sCall t.topic ((t.articles.map (resolveArticle arts)).take 5) = .ok content)
    (hstrip : pyStrip content = "")
    (hnl : ∀ c ∈ t.topic.data, c ≠ '\n') :
    (summarizeTopic arts sCall t).summary =
      some (fallbackSummary t.articles.length t.topic) := by
  unfold summarizeTopic
  simp [mapResolve_isEmpty arts t.articles hne, h, hstrip,
    stripLabel_fallback, collapseNewlines_fallback t.articles.length t.topic hnl]

/- ---------- claim theorems ---------- -/

/-- C1 counterexample: the relevance filter does not send one prompt
per batch of 5: on the 7-article input it makes 7 LLM calls, not 2,
and when every call is answered with the batch-decision JSON of the
claimed scenario (Yes for batch-local indices 1 and 3), the filter
returns all seven articles — because the substring `yes` occurs in the
JSON — and not the claimed `[article 0, article 2, article 6]`. -/
theorem C1_counterexample :
    (filter_stories_run false sampleArts7 (fun _ => Except.ok batchDecisionResp)).2 = 7 ∧
    (filter_stories_run false sampleArts7 (fun _ => Except.ok batchDecisionResp)).2 ≠ 2 ∧
    filter_stories false sampleArts7 (fun _ => Except.ok batchDecisionResp) = sampleArts7 ∧
    filter_stories false sampleArts7 (fun _ => Except.ok batchDecisionResp) ≠
      [sampleArticle 1, sampleArticle 3, sampleArticle 7] := by
  refine ⟨by decide, by decide, by decide, by decide⟩

/-- C1 (amended): the relevance filter processes articles one at a
time — one LLM prompt per article, so `n` calls for `n` articles — and
includes exactly those articles whose stripped, lowercased response
contains `yes`; in particular, with per-article Yes responses for
exactly global indices 0, 2 and 6 of a 7-article input, the output is
`[article 0, article 2, article 6]` in order. -/
theorem C1_amended_per_article_filter :
    (∀ (verbose : Bool) (articles : List Article) (respond : Article → Except Unit String),
      filter_stories_run verbose articles respond =
        (articles.filter (articlePasses verbose respond), articles.length)) ∧
    filter_stories false sampleArts7 scenarioRespond =
      [sampleArticle 1, sampleArticle 3, sampleArticle 7] := by
  exact ⟨filter_stories_run_eq, by decide⟩

/-- C2 counterexample: no unification happens after grouping.  With a
single chunk whose (valid-JSON) grouping response contains two topics
both named `A`, the final output of `group_and_summarize` contains two
entries with the same topic string. -/
theorem C2_counterexample :
    (group_and_summarize [stubArticle] (fun _ _ => Except.ok dupTopicsResp)
        (fun s => if s = dupTopicsResp then some dupTopicsDoc else none)
        (fun _ _ => Except.error ())).topics.map Topic.topic = ["A", "A"] ∧
    ¬ ((group_and_summarize [stubArticle] (fun _ _ => Except.ok dupTopicsResp)
        (fun s => if s = dupTopicsResp then some dupTopicsDoc else none)
        (fun _ _ => Except.error ())).topics.map Topic.topic).Nodup := by
  refine ⟨by decide, by decide⟩

/-- C2 (amended): grouping performs no unification at all: the grouped
topics are the concatenation of the per-chunk topic lists (fallbacks
included) in chunk order, duplicate topic names and duplicate articles
are preserved, and the summarization pass changes neither the topic
names nor the article lists of the final sequence. -/
theorem C2_amended_no_unification :
    (∀ (articles : List Article) (g : Nat → List Article → Except Unit String)
        (l : String → Option GroupDoc) (s : String → List Article → Except Unit String),
      articles ≠ [] →
        (group_and_summarize articles g l s).topics.map (fun t => (t.topic, t.articles)) =
          (groupChunks g l 0 (chunk_articles articles)).map (fun t => (t.topic, t.articles))) ∧
    (∀ (g : Nat → List Article → Except Unit String) (l : String → Option GroupDoc)
        (idx : Nat) (c : List Article) (rest : List (List Article)),
      groupChunks g l idx (c :: rest) =
        chunkTopics g l idx c ++ groupChunks g l (idx + 1) rest) := by
  constructor
  · intro arts g l s hne
    unfold group_and_summarize
    rw [if_neg (by simpa using hne)]
    rw [List.map_map]
    apply List.map_congr_left
    intro t _
    have h := summarizeTopic_fields arts s t
    simp [Function.comp, h.1, h.2]
  · intro g l idx c rest; rfl

/-- C2 witness: the amended statement applied to the duplicate-topic
run and to a concrete chunk list. -/
theorem C2_amended_witness :
    (group_and_summarize [stubArticle] (fun _ _ => Except.ok dupTopicsResp)
        (fun s => if s = dupTopicsResp then some dupTopicsDoc else none)
        (fun _ _ => Except.error ())).topics.map (fun t => (t.topic, t.articles)) =
      (groupChunks (fun _ _ => Except.ok dupTopicsResp)
        (fun s => if s = dupTopicsResp then some dupTopicsDoc else none) 0
        (chunk_articles [stubArticle])).map (fun t => (t.topic, t.articles)) ∧
    groupChunks (fun _ _ => Except.error ()) (fun _ => none) 0 [[stubArticle]] =
      chunkTopics (fun _ _ => Except.error ()) (fun _ => none) 0 [stubArticle] ++
        groupChunks (fun _ _ => Except.error ()) (fun _ => none) 1 [] :=
  ⟨C2_amended_no_unification.1 [stubArticle] _ _ _ (by decide),
   C2_amended_no_unification.2 _ _ 0 [stubArticle] []⟩

/-- C3: a chunk whose grouping call raises, or whose response fails
both the strict parse and the sanitize-and-reparse, contributes the
fallback topic `"Articles Group {chunk_index+1}"` holding exactly that
chunk's `{title, link}` pairs in input order; when every chunk fails,
every input article still appears in the grouped output. -/
theorem C3_fallback_topic_on_chunk_failure :
    (∀ (articles : List Article) (g : Nat → List Article → Except Unit String)
        (l : String → Option GroupDoc) (i : Nat) (c : List Article),
      (chunk_articles articles).get? i = some c → chunkFails g l i c →
        fallbackTopic i c ∈ groupChunks g l 0 (chunk_articles articles)) ∧
    (∀ (articles : List Article) (g : Nat → List Article → Except Unit String)
        (l : String → Option GroupDoc),
      (∀ i c, chunkFails g l i c) → ∀ a ∈ articles,
        ∃ t, t ∈ groupChunks g l 0 (chunk_articles articles) ∧
          LinkedArticle.mk a.title a.link ∈ t.articles) := by
  constructor
  · intro arts g l i c hget hfail
    have h := groupChunks_fallback_mem g l (chunk_articles arts) 0 i c hget
      (by simpa using hfail)
    simpa using h
  · intro arts g l hfail a ha
    exact groupChunks_coverage g l hfail (chunk_articles arts) 0 a
      (by rw [chunk_articles_join]; exact ha)

/-- C3 witness: a one-article input whose single grouping call raises. -/
theorem C3_witness :
    fallbackTopic 0 [stubArticle] ∈
      groupChunks (fun _ _ => Except.error ()) (fun _ => none) 0
        (chunk_articles [stubArticle]) ∧
    ∃ t, t ∈ groupChunks (fun _ _ => Except.error ()) (fun _ => none) 0
        (chunk_articles [stubArticle]) ∧
      LinkedArticle.mk stubArticle.title stubArticle.link ∈ t.articles :=
  ⟨C3_fallback_topic_on_chunk_failure.1 [stubArticle] _ _ 0 [stubArticle] rfl (Or.inl rfl),
   C3_fallback_topic_on_chunk_failure.2 [stubArticle] _ _
     (fun _ _ => Or.inl rfl) stubArticle (by decide)⟩

/-- C4: for every input, every mode and every oracle, the relevance
filter's output is a subsequence of its input: elements come from the
input, are not duplicated, and keep their relative order. -/
theorem C4_filter_output_sublist (verbose : Bool) (articles : List Article)
    (respond : Article → Except Unit String) :
    List.Sublist (filter_stories verbose articles respond) articles := by
  rw [filter_stories_eq_filter]
  exact List.filter_sublist articles

/-- C5: the sanitize-then-parse path is a total function — for every
input string it either yields a parsed value or reports failure — and
a grouping response that still fails to parse after sanitization
yields the fallback stub for its chunk rather than an error. -/
theorem C5_sanitize_then_parse_never_raises :
    (∀ (loads : String → Option GroupDoc) (s : String),
      (∃ d, validate_json loads s = ValidateResult.valid d) ∨
        validate_json loads s =
          ValidateResult.invalid "JSON parsing failed after sanitization") ∧
    (∀ (g : Nat → List Article → Except Unit String) (l : String → Option GroupDoc)
        (i : Nat) (c : List Article) (content : String),
      g i c = .ok content → l (pyStrip content) = none →
        l (sanitize_json_string (pyStrip content)) = none →
        chunkTopics g l i c = [fallbackTopic i c]) := by
  constructor
  · intro loads s
    unfold validate_json
    cases h1 : loads s with
    | some d => exact Or.inl ⟨d, rfl⟩
    | none =>
      cases h2 : loads (sanitize_json_string s) with
      | some d => exact Or.inl ⟨d, rfl⟩
      | none => exact Or.inr rfl
  · intro g l i c content hok h1 h2
    exact chunkTopics_of_fails g l i c (Or.inr ⟨content, hok, h1, h2⟩)

/-- C5 witness: a response that parses neither strictly nor after
sanitization produces the fallback stub. -/
theorem C5_witness :
    ((∃ d, validate_json (fun _ => none) "not json" = ValidateResult.valid d) ∨
      validate_json (fun _ => none) "not json" =
        ValidateResult.invalid "JSON parsing failed after sanitization") ∧
    chunkTopics (fun _ _ => Except.ok "not json") (fun _ => none) 0 [stubArticle] =
      [fallbackTopic 0 [stubArticle]] :=
  ⟨C5_sanitize_then_parse_never_raises.1 (fun _ => none) "not json",
   C5_sanitize_then_parse_never_raises.2 _ _ 0 [stubArticle] "not json" rfl rfl rfl⟩

/-- C6 counterexample: when the summarization response is empty, the
fallback string is still passed through the newline-collapsing
post-processing, so for the (reachable) topic name containing a
newline the final summary is not exactly
`"A collection of {N} articles about {topic}."`. -/
theorem C6_counterexample :
    (group_and_summarize [stubArticle] (fun _ _ => Except.ok nlTopicResp)
        (fun s => if s = nlTopicResp then some nlTopicDoc else none)
        (fun _ _ => Except.ok "")).topics.map Topic.summary =
      [some "A collection of 1 articles about a b."] ∧
    "A collection of 1 articles about a b." ≠ fallbackSummary 1 "a\nb" := by
  refine ⟨by decide, by decide⟩

/-- C6 (amended): for a topic with at least one listed article, a
summarization call that raises yields exactly
`"A collection of {N} articles about {topic}."`; an empty response
yields that same exact string whenever the topic name contains no
newline (otherwise the fallback has its newline runs collapsed to
single spaces by the post-processing). -/
theorem C6_amended_fallback_summary :
    (∀ (arts : List Article) (s : String → List Article → Except Unit String)
        (t : Topic),
      t.articles ≠ [] →
      s t.topic ((t.articles.map (resolveArticle arts)).take 5) = .error () →
      (summarizeTopic arts s t).summary =
        some (fallbackSummary t.articles.length t.topic)) ∧
    (∀ (arts : List Article) (s : String → List Article → Except Unit String)
        (t : Topic) (content : String),
      t.articles ≠ [] →
      s t.topic ((t.articles.map (resolveArticle arts)).take 5) = .ok content →
      pyStrip content = "" →
      (∀ c ∈ t.topic.data, c ≠ '\n') →
      (summarizeTopic arts s t).summary =
        some (fallbackSummary t.articles.length t.topic)) :=
  ⟨fun arts s t hne h => summarizeTopic_error arts s t hne h,
   fun arts s t content hne h h2 h3 =>
     summarizeTopic_empty_response arts s t content hne h h2 h3⟩

/-- C6 witness: both fallback paths at a concrete topic. -/
theorem C6_amended_witness :
    (summarizeTopic [stubArticle] (fun _ _ => Except.error ()) sampleTopic).summary =
      some (fallbackSummary 1 "Storms") ∧
    (summarizeTopic [stubArticle] (fun _ _ => Except.ok "") sampleTopic).summary =
      some (fallbackSummary 1 "Storms") :=
  ⟨C6_amended_fallback_summary.1 [stubArticle] _ sampleTopic (by decide) rfl,
   C6_amended_fallback_summary.2 [stubArticle] _ sampleTopic "" (by decide) rfl rfl
     (by decide)⟩

/-- C7: an exception from an individual LLM call never aborts the
stage: a filter call that raises only removes that article from the
output, and a grouping call that raises makes its chunk contribute the
fallback stub while the remaining chunks are still processed. -/
theorem C7_call_failures_absorbed :
    (∀ (verbose : Bool) (respond : Article → Except Unit String)
        (articles : List Article) (a : Article),
      respond a = .error () → a ∉ filter_stories verbose articles respond) ∧
    (∀ (g : Nat → List Article → Except Unit String) (l : String → Option GroupDoc)
        (idx : Nat) (c : List Article) (rest : List (List Article)),
      g idx c = .error () →
        groupChunks g l idx (c :: rest) =
          fallbackTopic idx c :: groupChunks g l (idx + 1) rest) := by
  constructor
  · intro v r arts a herr hmem
    rw [filter_stories_eq_filter] at hmem
    have h := (List.mem_filter.mp hmem).2
    simp [articlePasses, herr] at h
  · intro g l idx c rest herr
    simp [groupChunks, chunkTopics, herr]

/-- C7 witness: a raising filter call and a raising grouping call at
concrete inputs. -/
theorem C7_witness :
    stubArticle ∉ filter_stories false [stubArticle] (fun _ => Except.error ()) ∧
    groupChunks (fun _ _ => Except.error ()) (fun _ => none) 0 [[stubArticle]] =
      fallbackTopic 0 [stubArticle] ::
        groupChunks (fun _ _ => Except.error ()) (fun _ => none) 1 [] :=
  ⟨C7_call_failures_absorbed.1 false _ [stubArticle] stubArticle rfl,
   C7_call_failures_absorbed.2 _ (fun _ => none) 0 [stubArticle] [] rfl⟩

/-- C8: in single-article verbose mode the decision parser locates a
`DECISION: Yes` / `DECISION: No` marker case-insensitively, and when
no marker is present it falls back to a bare substring search — the
article is relevant exactly when the lowercased response contains
`yes`. -/
theorem C8_verbose_decision_parsing (content : String) :
    passStr true content =
      (containsStr (pyLower (pyStrip content)) "decision: yes" ||
        (!containsStr (pyLower (pyStrip content)) "decision: no" &&
          containsStr (pyLower (pyStrip content)) "yes")) := by
  have hyy : containsStr "yes" "yes" = true := by decide
  have hny : containsStr "no" "yes" = false := by decide
  unfold passStr decisionOf
  cases h1 : containsStr (pyLower (pyStrip content)) "decision: yes" <;>
    cases h2 : containsStr (pyLower (pyStrip content)) "decision: no" <;>
      cases h3 : containsStr (pyLower (pyStrip content)) "yes" <;>
        simp [h1, h2, h3, hyy, hny]

/-- C9: the history filter keeps exactly the articles whose link is
not recorded, and the publication test depends only on the link. -/
theorem C9_history_filter (h : ArticleHistory) (articles : List Article)
    (a b : Article) :
    (a ∈ h.filter_published articles ↔
      a ∈ articles ∧ h.is_published a = false) ∧
    (a.link = b.link → h.is_published a = h.is_published b) := by
  constructor
  · unfold ArticleHistory.filter_published
    rw [List.mem_filter]
    simp
  · intro he
    unfold ArticleHistory.is_published
    rw [he]

/-- C9 witness: a fresh article passes the filter, and an article
sharing its link gets the same publication status. -/
theorem C9_witness :
    (freshArticle ∈ sampleHistory.filter_published [freshArticle] ↔
      freshArticle ∈ [freshArticle] ∧
        sampleHistory.is_published freshArticle = false) ∧
    sampleHistory.is_published freshArticle =
      sampleHistory.is_published freshArticleAlias :=
  ⟨(C9_history_filter sampleHistory [freshArticle] freshArticle freshArticleAlias).1,
   (C9_history_filter sampleHistory [freshArticle] freshArticle freshArticleAlias).2 rfl⟩

/-- C10: on an empty article list `group_and_summarize` returns
exactly `{"topics": []}` and makes no LLM call. -/
theorem C10_empty_input_short_circuit
    (g : Nat → List Article → Except Unit String) (l : String → Option GroupDoc)
    (s : String → List Article → Except Unit String) :
    group_and_summarize [] g l s = { topics := [] } ∧
    group_and_summarize_calls [] g l = 0 :=
  ⟨rfl, rfl⟩

end RSS
